import Mathlib

/-!
Verification of the YouTube-TTS-Generator repository: a browser client
(`generateAudio` / `downloadAudio` in script.js) and a serverless relay
(`handler`) that forwards synthesis requests to an upstream text-to-speech
provider and transcodes its base64 audio payload into raw bytes.

The relay and client are embedded shallowly: JavaScript objects become
structures, `fetch` outcomes become explicit parameters, JS truthiness is
modelled on `Option String` / `Option Rat`, and Node's base64 codec
(`Buffer.from(s, 'base64')`) is modelled by an executable RFC 4648 decoder
over `List Nat` bytes.
-/

namespace TTS

/-! ### Base64 codec

Models the transcoding step `Buffer.from(audioContent, 'base64')` of the
relay (script.js line 385) and, for the round-trip property, the standard
base64 encoder producing such strings. Bytes are `Nat` values below 256. -/

/-- The standard base64 alphabet: value `n < 64` to its character. -/
def encChar (n : Nat) : Char :=
  if n < 26 then Char.ofNat (65 + n)
  else if n < 52 then Char.ofNat (97 + (n - 26))
  else if n < 62 then Char.ofNat (48 + (n - 52))
  else if n = 62 then '+'
  else '/'

/-- Inverse of the base64 alphabet: character to its 6-bit value. -/
def decCharVal (c : Char) : Nat :=
  if 65 ≤ c.toNat ∧ c.toNat ≤ 90 then c.toNat - 65
  else if 97 ≤ c.toNat ∧ c.toNat ≤ 122 then c.toNat - 97 + 26
  else if 48 ≤ c.toNat ∧ c.toNat ≤ 57 then c.toNat - 48 + 52
  else if c = '+' then 62
  else 63

/-- Standard base64 encoding of a byte list (3 bytes per 4 characters,
padded with `=`). -/
def b64EncodeList : List Nat → List Char
  | [] => []
  | [a] => [encChar (a / 4), encChar (a % 4 * 16), '=', '=']
  | [a, b] => [encChar (a / 4), encChar (a % 4 * 16 + b / 16), encChar (b % 16 * 4), '=']
  | a :: b :: c :: rest =>
      encChar (a / 4) :: encChar (a % 4 * 16 + b / 16) ::
      encChar (b % 16 * 4 + c / 64) :: encChar (c % 64) :: b64EncodeList rest

/-- Standard base64 decoding of a character list back to bytes, honouring
the `=` padding; models what `Buffer.from(s, 'base64')` produces on a
well-formed base64 string. -/
def b64DecodeList : List Char → List Nat
  | a :: b :: c :: d :: rest =>
      if c = '=' then [decCharVal a * 4 + decCharVal b / 16]
      else if d = '=' then
        [decCharVal a * 4 + decCharVal b / 16,
         decCharVal b % 16 * 16 + decCharVal c / 4]
      else
        (decCharVal a * 4 + decCharVal b / 16) ::
        (decCharVal b % 16 * 16 + decCharVal c / 4) ::
        (decCharVal c % 4 * 64 + decCharVal d) ::
        b64DecodeList rest
  | _ => []

/-- `Buffer.from(audioContent, 'base64')` from script.js line 385. -/
def bufferFromBase64 (s : String) : List Nat :=
  b64DecodeList s.data

/-- Encoding bytes to a base64 string (the provider-side encoding whose
output the relay decodes). -/
def bytesToBase64 (B : List Nat) : String :=
  String.mk (b64EncodeList B)

theorem decCharVal_encChar : ∀ n < 64, decCharVal (encChar n) = n := by decide

theorem encChar_ne_eq : ∀ n < 64, encChar n ≠ '=' := by decide

/-- Decoding undoes encoding, chunk by chunk. -/
theorem b64DecodeList_b64EncodeList :
    ∀ B : List Nat, (∀ b ∈ B, b < 256) → b64DecodeList (b64EncodeList B) = B := by
  intro B
  induction B using b64EncodeList.induct with
  | case1 =>
      intro _
      rfl
  | case2 a =>
      intro h
      have ha : a < 256 := h a (by simp)
      simp only [b64EncodeList, b64DecodeList, if_pos rfl]
      rw [decCharVal_encChar _ (by omega), decCharVal_encChar _ (by omega)]
      have : a / 4 * 4 + a % 4 * 16 / 16 = a := by omega
      rw [this]
      simp
  | case3 a b =>
      intro h
      have ha : a < 256 := h a (by simp)
      have hb : b < 256 := h b (by simp)
      have h3 : encChar (b % 16 * 4) ≠ '=' := encChar_ne_eq _ (by omega)
      simp only [b64EncodeList, b64DecodeList, if_neg h3, if_pos rfl]
      rw [decCharVal_encChar _ (by omega), decCharVal_encChar _ (by omega),
        decCharVal_encChar _ (by omega)]
      have e1 : a / 4 * 4 + (a % 4 * 16 + b / 16) / 16 = a := by omega
      have e2 : (a % 4 * 16 + b / 16) % 16 * 16 + b % 16 * 4 / 4 = b := by omega
      rw [e1, e2]
      simp
  | case4 a b c rest ih =>
      intro h
      have ha : a < 256 := h a (by simp)
      have hb : b < 256 := h b (by simp)
      have hc : c < 256 := h c (by simp)
      have h3 : encChar (b % 16 * 4 + c / 64) ≠ '=' := encChar_ne_eq _ (by omega)
      have h4 : encChar (c % 64) ≠ '=' := encChar_ne_eq _ (by omega)
      simp only [b64EncodeList, b64DecodeList, if_neg h3, if_neg h4]
      rw [decCharVal_encChar _ (by omega), decCharVal_encChar _ (by omega),
        decCharVal_encChar _ (by omega), decCharVal_encChar _ (by omega)]
      have e1 : a / 4 * 4 + (a % 4 * 16 + b / 16) / 16 = a := by omega
      have e2 : (a % 4 * 16 + b / 16) % 16 * 16 + (b % 16 * 4 + c / 64) / 4 = b := by omega
      have e3 : (b % 16 * 4 + c / 64) % 4 * 64 + c % 64 = c := by omega
      rw [e1, e2, e3, ih (fun x hx => h x (by simp [hx]))]

/-! ### JavaScript string builtins

`String.prototype.trim`, `String.prototype.split` and `Array.prototype.join`
are JS builtins used by the code; they are modelled here as executable
functions over the character list of a string. -/

/-- Whitespace as stripped by the JS `trim` builtin (modelled by Lean's
`Char.isWhitespace`). -/
def wsChar (c : Char) : Bool := c.isWhitespace

/-- Strip leading and trailing whitespace from a character list. -/
def trimList (l : List Char) : List Char :=
  ((l.dropWhile wsChar).reverse.dropWhile wsChar).reverse

/-- The JS builtin `s.trim()` (script.js line 88). -/
def jsTrim (s : String) : String := String.mk (trimList s.data)

/-- The JS builtin `s.split(sep)` for a single-character separator, on
character lists: splitting the empty string yields one empty group. -/
def splitOnChar (sep : Char) : List Char → List (List Char)
  | [] => [[]]
  | c :: rest =>
      let groups := splitOnChar sep rest
      if c = sep then [] :: groups
      else
        match groups with
        | [] => [[c]]
        | g :: gs => (c :: g) :: gs

/-! ### JavaScript truthiness helpers -/

/-- Truthiness of an optional JS string: `undefined` and the empty string
are falsy. -/
def truthyStr : Option String → Bool
  | none => false
  | some s => !(s == "")

/-- `s || d` for an optional JS string `s` with default `d`. -/
def jsOrStr (s : Option String) (d : String) : String :=
  match s with
  | none => d
  | some v => if v == "" then d else v

/-- `x || d` for an optional JS number `x` (modelled as `Rat`): `undefined`
and `0` are falsy. -/
def jsOrNum (x : Option Rat) (d : Rat) : Rat :=
  match x with
  | none => d
  | some v => if v == 0 then d else v

/-! ### Relay / transcoding service (the serverless `handler`)

The Vercel handler `handler(req, res)` is embedded as a pure function from
the inbound request, the environment credential and the (explicitly
supplied) outcome of the single upstream `fetch` to the response it sends,
paired with the upstream request payload it issued (if any). -/

/-- The JSON body the client posts: `{ text, voice, speed }`; each field may
be absent. -/
structure ReqBody where
  text : Option String
  voice : Option String
  speed : Option Rat
  deriving Repr, DecidableEq

/-- An inbound HTTP request as the handler sees it: its method and body. -/
structure Req where
  method : String
  body : ReqBody
  deriving Repr, DecidableEq

/-- `voice.split('-').slice(0, 2).join('-')` from script.js line 325. -/
def languageCodeOf (voice : String) : String :=
  String.mk (List.intercalate ['-'] ((splitOnChar '-' voice.data).take 2))

/-- The `voice` object of the upstream request (script.js lines 324-327). -/
structure GoogleVoice where
  languageCode : String
  name : String
  deriving Repr, DecidableEq

/-- The `audioConfig` object of the upstream request (script.js lines 328-333). -/
structure AudioConfig where
  audioEncoding : String
  speakingRate : Rat
  pitch : Rat
  volumeGainDb : Rat
  deriving Repr, DecidableEq

/-- The upstream synthesis payload `googleRequestBody` (script.js lines
320-334); `inputText` stands for the nested `input.text` field. -/
structure GoogleRequestBody where
  inputText : String
  voice : GoogleVoice
  audioConfig : AudioConfig
  deriving Repr, DecidableEq

/-- Construction of `googleRequestBody` from the inbound fields, exactly as
script.js lines 320-334 build it (`speed || 1.0` for the speaking rate). -/
def googleRequestBody (text voice : String) (speed : Option Rat) : GoogleRequestBody :=
  { inputText := text
    voice := { languageCode := languageCodeOf voice, name := voice }
    audioConfig :=
      { audioEncoding := "MP3"
        speakingRate := jsOrNum speed 1
        pitch := 0
        volumeGainDb := 0 } }

/-- The parsed JSON body of an upstream response: `errorMessage` models the
optional nested `error.message` field read on failure (script.js line 361),
`audioContent` the optional base64 audio string read on success (line 373). -/
structure GoogleResponseBody where
  errorMessage : Option String
  audioContent : Option String
  deriving Repr, DecidableEq

/-- The outcome of the single upstream `fetch`: either a reply with a status
code and parsed JSON body, or an exception thrown anywhere in the call chain
(network failure, body-parse failure). -/
inductive UpstreamBehavior
  | reply (status : Nat) (body : GoogleResponseBody)
  | throws (message : String)
  deriving Repr, DecidableEq

/-- `response.ok`: true when the status code is 200-299. -/
def responseOk (status : Nat) : Bool :=
  200 ≤ status && status ≤ 299

/-- The body the relay sends back: nothing (`res.end()`), a JSON error
object `{ error: msg }` (`res.json`), or raw bytes (`res.send(buffer)`). -/
inductive ResBody
  | empty
  | json (error : String)
  | bytes (buf : List Nat)
  deriving Repr, DecidableEq

/-- The relay's HTTP response: status code, the explicitly set
`Content-Type` and `Content-Length` headers (script.js lines 391-392;
`none` when not explicitly set), and the body. -/
structure Res where
  status : Nat
  contentType : Option String
  contentLength : Option Nat
  body : ResBody
  deriving Repr, DecidableEq

/-- What one handler invocation did: the response it sent and the upstream
request payload it posted (`none` when the upstream was never contacted). -/
structure HandlerResult where
  res : Res
  upstreamRequest : Option GoogleRequestBody
  deriving Repr, DecidableEq

/-- Shorthand for a JSON error response with no explicit audio headers. -/
def jsonRes (status : Nat) (error : String) : Res :=
  { status := status, contentType := none, contentLength := none,
    body := ResBody.json error }

/-- The serverless relay `handler` (script.js lines 254-406), with the
environment credential `apiKey` (`process.env.GOOGLE_CLOUD_API_KEY`) and
the upstream fetch outcome passed explicitly. -/
def handler (req : Req) (apiKey : Option String) (upstream : UpstreamBehavior) :
    HandlerResult :=
  if req.method == "OPTIONS" then
    { res := { status := 200, contentType := none, contentLength := none,
               body := ResBody.empty },
      upstreamRequest := none }
  else if !(req.method == "POST") then
    { res := jsonRes 405 "Method not allowed. Use POST.", upstreamRequest := none }
  else if !(truthyStr req.body.text && truthyStr req.body.voice) then
    { res := jsonRes 400 "Missing required fields: text and voice",
      upstreamRequest := none }
  else if !(truthyStr apiKey) then
    { res := jsonRes 500 "Server configuration error: API key not found",
      upstreamRequest := none }
  else
    let gbody := googleRequestBody (req.body.text.getD "") (req.body.voice.getD "")
      req.body.speed
    match upstream with
    | UpstreamBehavior.throws msg =>
        { res := jsonRes 500 ("Internal server error: " ++ msg),
          upstreamRequest := some gbody }
    | UpstreamBehavior.reply status rbody =>
        if !(responseOk status) then
          { res := jsonRes status (jsOrStr rbody.errorMessage "Failed to generate speech"),
            upstreamRequest := some gbody }
        else if !(truthyStr rbody.audioContent) then
          { res := jsonRes 500 "No audio content received from Google",
            upstreamRequest := some gbody }
        else
          let audioBuffer := bufferFromBase64 (rbody.audioContent.getD "")
          { res := { status := 200, contentType := some "audio/mpeg",
                     contentLength := some audioBuffer.length,
                     body := ResBody.bytes audioBuffer },
            upstreamRequest := some gbody }

/-! ### Client request builder (`generateAudio` / `downloadAudio`)

The browser-side flow is embedded with the trimmed input text, the fetch
outcome and the module-level `currentAudioBlob` variable made explicit. -/

/-- The two client-side validation failures of `generateAudio` (script.js
lines 93-101). -/
inductive ValidationError
  | EmptyInput
  | TooShort
  deriving Repr, DecidableEq

/-- The validation `generateAudio` performs on the trimmed text before any
network call: `!text` then `text.length < 10` (script.js lines 88, 93-101). -/
def validate (raw : String) : Option ValidationError :=
  let text := jsTrim raw
  if text == "" then some ValidationError.EmptyInput
  else if text.length < 10 then some ValidationError.TooShort
  else none

/-- The outcome of the client's `fetch('/api/generate-speech', ...)`:
a 2xx response whose blob holds the audio bytes, a non-2xx response whose
parsed JSON carries an optional `error` field, or a thrown exception
(network or parse failure). -/
inductive FetchBehavior
  | ok (audioBytes : List Nat)
  | notOk (errorField : Option String)
  | throws (message : String)
  deriving Repr, DecidableEq

/-- The client's module-level state: the `currentAudioBlob` variable
(script.js line 23). -/
structure ClientState where
  currentAudioBlob : Option (List Nat)
  deriving Repr, DecidableEq

/-- What the user ends up seeing after `generateAudio` settles. -/
inductive ClientOutcome
  | errorShown (message : String)
  | success
  deriving Repr, DecidableEq

/-- `generateAudio` (script.js lines 86-174) as a transition on the client
state: validation first (no fetch on failure), then the fetch outcome;
`currentAudioBlob` is assigned only on a 2xx response. -/
def generateAudio (raw : String) (fetchResult : FetchBehavior) (s : ClientState) :
    ClientState × ClientOutcome :=
  match validate raw with
  | some ValidationError.EmptyInput =>
      (s, ClientOutcome.errorShown "Please enter some text for your script")
  | some ValidationError.TooShort =>
      (s, ClientOutcome.errorShown "Script is too short. Please add more text.")
  | none =>
    match fetchResult with
    | FetchBehavior.ok bytes =>
        ({ currentAudioBlob := some bytes }, ClientOutcome.success)
    | FetchBehavior.notOk err =>
        (s, ClientOutcome.errorShown (jsOrStr err "Failed to generate audio"))
    | FetchBehavior.throws msg =>
        (s, ClientOutcome.errorShown msg)

/-- What `downloadAudio` does (script.js lines 179-197): an error message
when no blob is stored, otherwise a local save of the stored bytes. -/
inductive DownloadOutcome
  | errorShown (message : String)
  | saved (audioBytes : List Nat)
  deriving Repr, DecidableEq

/-- `downloadAudio` (script.js lines 179-197) reads only `currentAudioBlob`. -/
def downloadAudio (s : ClientState) : DownloadOutcome :=
  match s.currentAudioBlob with
  | none => DownloadOutcome.errorShown "No audio to download. Please generate audio first."
  | some b => DownloadOutcome.saved b

/-- A generation attempt succeeds exactly when validation passes and the
fetch resolves with a 2xx response. -/
def attemptSucceeds (raw : String) (fetchResult : FetchBehavior) : Bool :=
  match validate raw, fetchResult with
  | none, FetchBehavior.ok _ => true
  | _, _ => false

/-- Running a sequence of generation attempts from a client state. -/
def runAttempts (s : ClientState) : List (String × FetchBehavior) → ClientState
  | [] => s
  | (raw, f) :: rest => runAttempts (generateAudio raw f s).1 rest

/-! ### Helper lemmas -/

/-- A string has length zero exactly when it is the empty string. -/
theorem string_length_eq_zero_iff (s : String) : s.length = 0 ↔ s = "" := by
  cases s with
  | mk d => cases d <;> simp [String.length, String.ext_iff]

/-- A failing generation attempt leaves the client state unchanged. -/
theorem generateAudio_fst_of_fail (raw : String) (f : FetchBehavior) (s : ClientState)
    (hfail : attemptSucceeds raw f = false) : (generateAudio raw f s).1 = s := by
  unfold generateAudio
  unfold attemptSucceeds at hfail
  cases hval : validate raw with
  | some e => cases e <;> simp
  | none =>
      rw [hval] at hfail
      cases f with
      | ok bytes => simp at hfail
      | notOk e => simp
      | throws m => simp

/-- Each generation attempt either preserves the state or stores some bytes. -/
theorem generateAudio_fst_cases (raw : String) (f : FetchBehavior) (s : ClientState) :
    (generateAudio raw f s).1 = s ∨
      ∃ bytes, (generateAudio raw f s).1 = ClientState.mk (some bytes) := by
  unfold generateAudio
  cases hval : validate raw with
  | some e => cases e <;> simp
  | none => cases f <;> simp

/-- An attempt succeeds exactly when validation passes and the fetch is 2xx. -/
theorem attemptSucceeds_true_iff (raw : String) (f : FetchBehavior) :
    attemptSucceeds raw f = true ↔
      validate raw = none ∧ ∃ bytes, f = FetchBehavior.ok bytes := by
  unfold attemptSucceeds
  cases hval : validate raw <;> cases f <;> simp

/-- A sequence of failing attempts leaves the client state unchanged. -/
theorem runAttempts_of_all_fail (hist : List (String × FetchBehavior)) :
    ∀ s : ClientState, (∀ p ∈ hist, attemptSucceeds p.1 p.2 = false) →
      runAttempts s hist = s := by
  induction hist with
  | nil => intro s _; rfl
  | cons p rest ih =>
      intro s h
      obtain ⟨raw, f⟩ := p
      show runAttempts (generateAudio raw f s).1 rest = s
      rw [generateAudio_fst_of_fail raw f s (h (raw, f) (by simp))]
      exact ih s (fun q hq => h q (by simp [hq]))

/-- Once some audio is stored, later attempts never clear it. -/
theorem runAttempts_blob_some (hist : List (String × FetchBehavior)) :
    ∀ b, ∃ b2,
      (runAttempts (ClientState.mk (some b)) hist).currentAudioBlob = some b2 := by
  induction hist with
  | nil => intro b; exact ⟨b, rfl⟩
  | cons p rest ih =>
      intro b
      obtain ⟨raw, f⟩ := p
      show ∃ b2,
        (runAttempts (generateAudio raw f (ClientState.mk (some b))).1 rest).currentAudioBlob
          = some b2
      rcases generateAudio_fst_cases raw f (ClientState.mk (some b)) with h | ⟨bytes, h⟩
      · rw [h]; exact ih b
      · rw [h]; exact ih bytes

/-- Starting from an empty blob, the blob stays empty exactly when every
attempt in the history fails. -/
theorem runAttempts_none_iff (hist : List (String × FetchBehavior)) :
    (runAttempts (ClientState.mk none) hist).currentAudioBlob = none ↔
      ∀ p ∈ hist, attemptSucceeds p.1 p.2 = false := by
  induction hist with
  | nil => simp [runAttempts]
  | cons p rest ih =>
      obtain ⟨raw, f⟩ := p
      by_cases hs : attemptSucceeds raw f = true
      · obtain ⟨hval, bytes, hb⟩ := (attemptSucceeds_true_iff raw f).1 hs
        have hstate : (generateAudio raw f (ClientState.mk none)).1 =
            ClientState.mk (some bytes) := by
          subst hb; simp [generateAudio, hval]
        constructor
        · intro hnone
          rw [show runAttempts (ClientState.mk none) ((raw, f) :: rest) =
                runAttempts (generateAudio raw f (ClientState.mk none)).1 rest from rfl,
              hstate] at hnone
          obtain ⟨b2, hb2⟩ := runAttempts_blob_some rest bytes
          rw [hb2] at hnone
          exact absurd hnone (by simp)
        · intro hall
          exact absurd (hall (raw, f) (by simp)) (by simp [hs])
      · have hf : attemptSucceeds raw f = false := by
          cases h : attemptSucceeds raw f
          · rfl
          · exact absurd h hs
        rw [show runAttempts (ClientState.mk none) ((raw, f) :: rest) =
              runAttempts (generateAudio raw f (ClientState.mk none)).1 rest from rfl,
            generateAudio_fst_of_fail raw f _ hf]
        constructor
        · intro hnone q hq
          rcases List.mem_cons.1 hq with hq | hq
          · subst hq; exact hf
          · exact (ih.1 hnone) q hq
        · intro hall
          exact ih.2 (fun q hq => hall q (by simp [hq]))

/-- Downloading reports the no-audio error exactly when no blob is stored. -/
theorem downloadAudio_eq_error_iff (s : ClientState) :
    downloadAudio s =
        DownloadOutcome.errorShown "No audio to download. Please generate audio first." ↔
      s.currentAudioBlob = none := by
  obtain ⟨blob⟩ := s
  cases blob <;> simp [downloadAudio]

/-- On any request that passes the method, field and credential checks, the
handler posts exactly the `googleRequestBody` payload upstream. -/
theorem handler_upstreamRequest_eq (req : Req) (apiKey : Option String)
    (upstream : UpstreamBehavior) (hm : req.method = "POST")
    (ht : truthyStr req.body.text = true) (hv : truthyStr req.body.voice = true)
    (hk : truthyStr apiKey = true) :
    (handler req apiKey upstream).upstreamRequest =
      some (googleRequestBody (req.body.text.getD "") (req.body.voice.getD "")
        req.body.speed) := by
  cases upstream with
  | throws m => simp [handler, hm, ht, hv, hk]
  | reply status rbody =>
      simp only [handler, hm, ht, hv, hk]
      simp only [show (("POST" : String) == "OPTIONS") = false from rfl,
        show (("POST" : String) == "POST") = true from rfl]
      simp only [Bool.and_self, Bool.not_true, Bool.false_eq_true, if_false]
      split
      · rfl
      · split <;> rfl

/-! ### Claim theorems -/

/-- C1: when the upstream provider responds with a 2xx status and a
non-empty `audioContent` field, the relay decodes the base64 string and
responds 200 with `Content-Type: audio/mpeg`, `Content-Length` equal to the
number of decoded bytes, and the decoded bytes as the body. -/
theorem C1_success_transcoding (req : Req) (apiKey : Option String) (status : Nat)
    (em : Option String) (a : String) (hm : req.method = "POST")
    (ht : truthyStr req.body.text = true) (hv : truthyStr req.body.voice = true)
    (hk : truthyStr apiKey = true) (hok : responseOk status = true) (ha : a ≠ "") :
    (handler req apiKey (UpstreamBehavior.reply status ⟨em, some a⟩)).res =
      { status := 200, contentType := some "audio/mpeg",
        contentLength := some (bufferFromBase64 a).length,
        body := ResBody.bytes (bufferFromBase64 a) } := by
  have haa : truthyStr (some a) = true := by simp [truthyStr, ha]
  simp [handler, hm, ht, hv, hk, hok, haa]

/-- Witness for C1 at a concrete invocation: the base64 string `SGVsbG8=`
decodes to the bytes of `Hello`. -/
theorem C1_success_transcoding_witness :
    (handler ⟨"POST", ⟨some "Hello world, this is a test.", some "en-US-Neural2-A", some 1⟩⟩
        (some "key") (UpstreamBehavior.reply 200 ⟨none, some "SGVsbG8="⟩)).res =
      { status := 200, contentType := some "audio/mpeg",
        contentLength := some (bufferFromBase64 "SGVsbG8=").length,
        body := ResBody.bytes (bufferFromBase64 "SGVsbG8=") } :=
  C1_success_transcoding _ _ _ _ _ rfl (by decide) (by decide) (by decide) (by decide)
    (by decide)

/-- C2 (amended): when the upstream reply has a non-2xx status `S`, the
relay responds with the same status `S`; the body is `{ error: M }` when the
parsed upstream body carries a non-empty `error.message` field `M`, and the
generic fallback `Failed to generate speech` when the field is absent or
empty (falsy). -/
theorem C2_status_propagation (req : Req) (apiKey : Option String) (status : Nat)
    (ac : Option String) (hm : req.method = "POST")
    (ht : truthyStr req.body.text = true) (hv : truthyStr req.body.voice = true)
    (hk : truthyStr apiKey = true) (hnok : responseOk status = false) :
    (∀ M : String, M ≠ "" →
      (handler req apiKey (UpstreamBehavior.reply status ⟨some M, ac⟩)).res =
        jsonRes status M) ∧
    (∀ em : Option String, truthyStr em = false →
      (handler req apiKey (UpstreamBehavior.reply status ⟨em, ac⟩)).res =
        jsonRes status "Failed to generate speech") := by
  constructor
  · intro M hM
    simp [handler, hm, ht, hv, hk, hnok, jsOrStr, hM]
  · intro em hem
    cases em with
    | none => simp [handler, hm, ht, hv, hk, hnok, jsOrStr]
    | some m =>
        have hm0 : m = "" := by simpa [truthyStr] using hem
        subst hm0
        simp [handler, hm, ht, hv, hk, hnok, jsOrStr]

/-- Witness for C2 at a concrete invocation: upstream 403 with message
`quota exceeded` propagates, and an absent message gives the fallback. -/
theorem C2_status_propagation_witness :
    (handler ⟨"POST", ⟨some "Hello world, this is a test.", some "en-US-Neural2-A", some 1⟩⟩
        (some "key") (UpstreamBehavior.reply 403 ⟨some "quota exceeded", none⟩)).res =
      jsonRes 403 "quota exceeded" :=
  (C2_status_propagation _ _ _ _ rfl (by decide) (by decide) (by decide) (by decide)).1
    "quota exceeded" (by decide)

/-- Counterexample to C2 as stated: a present but empty `error.message`
field is replaced by the generic fallback, not propagated verbatim. -/
theorem C2_status_propagation_counterexample :
    responseOk 403 = false ∧
    (handler ⟨"POST", ⟨some "Hello world, this is a test.", some "en-US-Neural2-A", some 1⟩⟩
        (some "key") (UpstreamBehavior.reply 403 ⟨some "", none⟩)).res =
      jsonRes 403 "Failed to generate speech" ∧
    jsonRes 403 "Failed to generate speech" ≠ jsonRes 403 "" := by
  refine ⟨by decide, by decide, by decide⟩

/-- C3: client-side validation of the raw text fails with `EmptyInput` iff
the trimmed length is 0, fails with `TooShort` iff the trimmed length is
strictly between 0 and 10, succeeds otherwise; on either failure the result
of `generateAudio` is independent of any fetch outcome (no network request
is issued). -/
theorem C3_client_validation (raw : String) :
    (validate raw = some ValidationError.EmptyInput ↔ (jsTrim raw).length = 0) ∧
    (validate raw = some ValidationError.TooShort ↔
      0 < (jsTrim raw).length ∧ (jsTrim raw).length < 10) ∧
    (validate raw = none ↔ 10 ≤ (jsTrim raw).length) ∧
    (validate raw ≠ none →
      ∀ f g s, generateAudio raw f s = generateAudio raw g s) := by
  have hlen := string_length_eq_zero_iff (jsTrim raw)
  by_cases h0 : jsTrim raw = ""
  · have hl : (jsTrim raw).length = 0 := hlen.2 h0
    have hval : validate raw = some ValidationError.EmptyInput := by simp [validate, h0]
    refine ⟨by simp [hval, hl], by simp [hval, hl], by simp [hval, hl], ?_⟩
    intro _ f g s
    simp [generateAudio, hval]
  · have hl : (jsTrim raw).length ≠ 0 := fun h => h0 (hlen.1 h)
    by_cases h10 : (jsTrim raw).length < 10
    · have hval : validate raw = some ValidationError.TooShort := by
        simp [validate, h0, h10]
      refine ⟨by simp [hval]; omega, by simp [hval]; omega, by simp [hval]; omega, ?_⟩
      intro _ f g s
      simp [generateAudio, hval]
    · have hval : validate raw = none := by simp [validate, h0, h10]
      refine ⟨by simp [hval]; omega, by simp [hval]; omega, by simp [hval]; omega, ?_⟩
      intro hne
      exact absurd hval hne

/-- Witness for C3 at concrete inputs: `short` trims to length 5 and fails
with `TooShort`, and the outcome is independent of the fetch result. -/
theorem C3_client_validation_witness :
    (validate "short" = some ValidationError.TooShort ↔
      0 < (jsTrim "short").length ∧ (jsTrim "short").length < 10) ∧
    generateAudio "short" (FetchBehavior.ok [1]) ⟨none⟩ =
      generateAudio "short" (FetchBehavior.throws "x") ⟨none⟩ :=
  ⟨(C3_client_validation "short").2.1,
   (C3_client_validation "short").2.2.2 (by decide) _ _ _⟩

/-- C4: on a valid POST invocation, the upstream payload built from the
inbound `{ text, voice, speed }` is `{ input: { text }, voice:
{ languageCode: first two hyphen-separated segments of voice joined by a
hyphen, name: voice }, audioConfig: { audioEncoding: MP3, speakingRate:
speed when truthy and 1.0 otherwise, pitch: 0.0, volumeGainDb: 0.0 } }`. -/
theorem C4_upstream_payload (t v : String) (sp : Option Rat) (apiKey : Option String)
    (upstream : UpstreamBehavior) (ht : t ≠ "") (hv : v ≠ "")
    (hk : truthyStr apiKey = true) :
    (handler ⟨"POST", ⟨some t, some v, sp⟩⟩ apiKey upstream).upstreamRequest =
      some { inputText := t,
             voice :=
               { languageCode :=
                   String.mk (List.intercalate ['-'] ((splitOnChar '-' v.data).take 2)),
                 name := v },
             audioConfig :=
               { audioEncoding := "MP3",
                 speakingRate :=
                   (match sp with
                    | some s => if s = 0 then (1 : Rat) else s
                    | none => 1),
                 pitch := 0, volumeGainDb := 0 } } := by
  have htt : truthyStr (some t) = true := by simp [truthyStr, ht]
  have hvv : truthyStr (some v) = true := by simp [truthyStr, hv]
  rw [handler_upstreamRequest_eq _ _ _ rfl htt hvv hk]
  unfold googleRequestBody languageCodeOf jsOrNum
  cases sp with
  | none => rfl
  | some s =>
      by_cases hs : s = 0 <;> simp [hs]

/-- Witness for C4 at a concrete invocation: `en-US-Neural2-A` maps to
language code `en-US` and speed 1.0 passes through. -/
theorem C4_upstream_payload_witness :
    (handler ⟨"POST", ⟨some "Hello world, this is a test.", some "en-US-Neural2-A", some 1⟩⟩
        (some "key") (UpstreamBehavior.reply 200 ⟨none, some "SGVsbG8="⟩)).upstreamRequest =
      some { inputText := "Hello world, this is a test.",
             voice :=
               { languageCode :=
                   String.mk (List.intercalate ['-']
                     ((splitOnChar '-' ("en-US-Neural2-A" : String).data).take 2)),
                 name := "en-US-Neural2-A" },
             audioConfig :=
               { audioEncoding := "MP3",
                 speakingRate :=
                   (match some (1 : Rat) with
                    | some s => if s = 0 then (1 : Rat) else s
                    | none => 1),
                 pitch := 0, volumeGainDb := 0 } } :=
  C4_upstream_payload _ _ _ _ _ (by decide) (by decide) (by decide)

/-- C5: a POST invocation whose body is missing `text` or missing `voice`
gets a 400 response with the fixed error message, and the upstream is never
contacted. -/
theorem C5_missing_fields (req : Req) (apiKey : Option String)
    (upstream : UpstreamBehavior) (hm : req.method = "POST")
    (h : req.body.text = none ∨ req.body.voice = none) :
    handler req apiKey upstream =
      { res := jsonRes 400 "Missing required fields: text and voice",
        upstreamRequest := none } := by
  rcases h with h | h <;> simp [handler, hm, h, truthyStr]

/-- Witness for C5 at a concrete invocation with `voice` absent. -/
theorem C5_missing_fields_witness :
    handler ⟨"POST", ⟨some "Hello world, this is a test.", none, some 1⟩⟩ (some "key")
        (UpstreamBehavior.reply 200 ⟨none, some "SGVsbG8="⟩) =
      { res := jsonRes 400 "Missing required fields: text and voice",
        upstreamRequest := none } :=
  C5_missing_fields _ _ _ rfl (Or.inr rfl)

/-- C6: a POST invocation with both fields passing the field check but the
server credential absent from the environment gets a 500 response with the
fixed configuration error, and the upstream is never contacted. -/
theorem C6_missing_credential (req : Req) (upstream : UpstreamBehavior)
    (hm : req.method = "POST") (ht : truthyStr req.body.text = true)
    (hv : truthyStr req.body.voice = true) :
    handler req none upstream =
      { res := jsonRes 500 "Server configuration error: API key not found",
        upstreamRequest := none } := by
  simp [handler, hm, ht, hv, show truthyStr (none : Option String) = false from rfl]

/-- Witness for C6 at a concrete invocation with no credential. -/
theorem C6_missing_credential_witness :
    handler ⟨"POST", ⟨some "Hello world, this is a test.", some "en-US-Neural2-A", some 1⟩⟩
        none (UpstreamBehavior.reply 200 ⟨none, some "SGVsbG8="⟩) =
      { res := jsonRes 500 "Server configuration error: API key not found",
        upstreamRequest := none } :=
  C6_missing_credential _ _ rfl (by decide) (by decide)

/-- C7: when the upstream replies with a 2xx status but the parsed payload
has no (or a falsy) `audioContent` field, the relay responds 500 with the
fixed no-audio error. -/
theorem C7_no_audio_content (req : Req) (apiKey : Option String) (status : Nat)
    (em ac : Option String) (hm : req.method = "POST")
    (ht : truthyStr req.body.text = true) (hv : truthyStr req.body.voice = true)
    (hk : truthyStr apiKey = true) (hok : responseOk status = true)
    (hac : truthyStr ac = false) :
    (handler req apiKey (UpstreamBehavior.reply status ⟨em, ac⟩)).res =
      jsonRes 500 "No audio content received from Google" := by
  simp [handler, hm, ht, hv, hk, hok, hac]

/-- Witness for C7 at a concrete invocation with `audioContent` absent. -/
theorem C7_no_audio_content_witness :
    (handler ⟨"POST", ⟨some "Hello world, this is a test.", some "en-US-Neural2-A", some 1⟩⟩
        (some "key") (UpstreamBehavior.reply 200 ⟨none, none⟩)).res =
      jsonRes 500 "No audio content received from Google" :=
  C7_no_audio_content _ _ _ _ _ rfl (by decide) (by decide) (by decide) (by decide)
    (by decide)

/-- C8: an exception thrown anywhere in the upstream call chain is caught:
the relay still produces a response, with status 500 and body
`{ error: "Internal server error: " + message }`. -/
theorem C8_exception_caught (req : Req) (apiKey : Option String) (msg : String)
    (hm : req.method = "POST") (ht : truthyStr req.body.text = true)
    (hv : truthyStr req.body.voice = true) (hk : truthyStr apiKey = true) :
    (handler req apiKey (UpstreamBehavior.throws msg)).res =
      jsonRes 500 ("Internal server error: " ++ msg) := by
  simp [handler, hm, ht, hv, hk]

/-- Witness for C8 at a concrete invocation with a network failure. -/
theorem C8_exception_caught_witness :
    (handler ⟨"POST", ⟨some "Hello world, this is a test.", some "en-US-Neural2-A", some 1⟩⟩
        (some "key") (UpstreamBehavior.throws "fetch failed")).res =
      jsonRes 500 ("Internal server error: " ++ "fetch failed") :=
  C8_exception_caught _ _ _ rfl (by decide) (by decide) (by decide)

/-- C9: for every byte sequence `B`, encoding `B` to base64 and decoding
the result (the relay's transcoding step) reproduces exactly `B`; since the
decoder is a pure function, a fixed base64 string therefore always yields
the same bytes and the same `Content-Length`. -/
theorem C9_base64_roundtrip (B : List Nat) (h : ∀ b ∈ B, b < 256) :
    bufferFromBase64 (bytesToBase64 B) = B :=
  b64DecodeList_b64EncodeList B h

/-- Witness for C9 on the concrete bytes of `Hello`. -/
theorem C9_base64_roundtrip_witness :
    (∀ b ∈ [72, 101, 108, 108, 111], b < 256) ∧
    bufferFromBase64 (bytesToBase64 [72, 101, 108, 108, 111]) =
      [72, 101, 108, 108, 111] :=
  ⟨by decide, C9_base64_roundtrip _ (by decide)⟩

/-- C10: a failed generation attempt (client validation failure, relay
error response, or thrown error) leaves `currentAudioBlob` unchanged; a
successful attempt stores the received bytes; and starting from no stored
audio, a download reports the no-audio error exactly when every attempt in
the history failed. -/
theorem C10_artifact_frame (raw : String) (f : FetchBehavior) (s : ClientState)
    (hfail : attemptSucceeds raw f = false) :
    (generateAudio raw f s).1 = s ∧
    downloadAudio (generateAudio raw f s).1 = downloadAudio s ∧
    (∀ raw2 bytes s2, validate raw2 = none →
      (generateAudio raw2 (FetchBehavior.ok bytes) s2).1 = ClientState.mk (some bytes)) ∧
    (∀ hist : List (String × FetchBehavior),
      (downloadAudio (runAttempts (ClientState.mk none) hist) =
          DownloadOutcome.errorShown "No audio to download. Please generate audio first." ↔
        ∀ p ∈ hist, attemptSucceeds p.1 p.2 = false)) := by
  have hframe := generateAudio_fst_of_fail raw f s hfail
  refine ⟨hframe, by rw [hframe], ?_, ?_⟩
  · intro raw2 bytes s2 hval
    simp [generateAudio, hval]
  · intro hist
    rw [downloadAudio_eq_error_iff]
    exact runAttempts_none_iff hist

/-- Witness for C10 at a concrete failing attempt: a too-short script with
a stored blob leaves the blob untouched. -/
theorem C10_artifact_frame_witness :
    attemptSucceeds "short" (FetchBehavior.ok [1]) = false ∧
    (generateAudio "short" (FetchBehavior.ok [1]) (ClientState.mk (some [9]))).1 =
      ClientState.mk (some [9]) :=
  ⟨by decide,
   (C10_artifact_frame "short" (FetchBehavior.ok [1]) (ClientState.mk (some [9]))
     (by decide)).1⟩

end TTS
